import Mathlib

/-!
Verification of the `ft_lock` screen locker (src/ft_lock.py).

This file shallowly embeds the authentication / lockout / input-filter core
of `FTLock` and proves or refutes the frozen specification claims about it.

Conventions of the embedding:
* Python wall-clock instants (`time.time()`) are modelled as integers `Int`
  (the code only compares instants and adds the constant 300 to them, so an
  integral clock carries the whole behaviour).
* The Tk callback scheduled by `root.after(300000, self._clear_lockout)`
  (ft_lock.py line 274) is modelled as a `pendingClear` field holding the
  absolute time at which the callback will run.
* Python truthiness of `self.lockout_start_time` (line 234) is modelled
  explicitly: `None` and `0.0` are falsy, so the guard checks both that
  the option is `some t` and that `t ≠ 0`.
* A PAM call that raises is modelled by `VerifierResult.err`;
  `authenticate_user` (lines 204-211) catches the exception and returns
  `False`.
-/

set_option autoImplicit false

namespace FTLock

/-! ## Input filter (`FTLock.block_all_keys`, ft_lock.py lines 105-145) -/

/-- Verdict of the key filter: Python `return "break"` is `block`,
a plain `return` (None) is `allow`. -/
inductive FilterVerdict where
  | allow : FilterVerdict
  | block : FilterVerdict
deriving DecidableEq, Repr

/-- A Tk keyboard event: the modifier bitmask `event.state` and the
keysym string `event.keysym`. -/
structure KeyEvent where
  state : Nat
  keysym : String
deriving DecidableEq, Repr

/-- The `allowed_keys` set of ft_lock.py lines 108-111. -/
def allowed_keys : List String :=
  ["Return", "BackSpace", "Delete", "Left", "Right", "Home", "End",
   "Tab", "space", "Space"]

/-- The `special_chars` set of ft_lock.py lines 114-121. -/
def special_chars : List String :=
  ["slash", "at", "numbersign", "dollar", "percent", "asciicircum",
   "ampersand", "asterisk", "parenleft", "parenright", "minus", "underscore",
   "plus", "equal", "bracketleft", "bracketright", "braceleft", "braceright",
   "backslash", "bar", "semicolon", "colon", "apostrophe", "quotedbl",
   "comma", "period", "less", "greater", "question", "grave", "asciitilde",
   "exclam"]

/-- The keysyms blocked when the control modifier (bit 0x4) is pressed,
ft_lock.py line 125. -/
def ctrl_blocked_keys : List String := ["c", "v", "x", "z", "a", "t"]

/-- Python `p.startswith(s)` for strings, modelled on the character lists. -/
def startswith (p s : String) : Bool := p.data.isPrefixOf s.data

/-- `FTLock.block_all_keys` (ft_lock.py lines 105-145), branch for branch:
control+{c,v,x,z,a,t} is blocked; any alt (0x8) or super (0x40) combination
is blocked; single-character keysyms are allowed; named keys in the two
allow sets or starting with `KP_` are allowed; everything else is blocked. -/
def block_all_keys (e : KeyEvent) : FilterVerdict :=
  if e.state &&& 0x4 ≠ 0 ∧ e.keysym ∈ ctrl_blocked_keys then .block
  else if e.state &&& 0x8 ≠ 0 then .block
  else if e.state &&& 0x40 ≠ 0 then .block
  else if e.keysym.length = 1 then .allow
  else if e.keysym ∈ allowed_keys ∨ e.keysym ∈ special_chars
          ∨ startswith "KP_" e.keysym = true then .allow
  else .block

/-! ## Authentication / lockout state machine

The mutable fields of the `FTLock` instance that the authentication code
touches (`self.attempts`, `self.lockout_active`, `self.lockout_start_time`,
ft_lock.py lines 30-35), plus `pendingClear` modelling the Tk timer
scheduled by `root.after(300000, self._clear_lockout)` at line 274. -/

structure LockState where
  attempts : Nat
  lockoutActive : Bool
  lockoutStartTime : Option Int
  pendingClear : Option Int
deriving DecidableEq, Repr

/-- The state built by `FTLock.__init__` (ft_lock.py lines 24-36):
`attempts = 0`, `lockout_active = False`, `lockout_start_time = None`,
and no `_clear_lockout` callback scheduled. -/
def initState : LockState :=
  { attempts := 0, lockoutActive := false, lockoutStartTime := none,
    pendingClear := none }

/-- `self.max_attempts = 3` (ft_lock.py line 31). -/
def max_attempts : Nat := 3

/-- The lockout cooldown: 300 seconds (ft_lock.py lines 236 and 274). -/
def lockout_duration : Int := 300

/-- What the PAM call `p.authenticate(username, password)` did for this
submission: returned a boolean, or raised an exception. -/
inductive VerifierResult where
  | ok : Bool → VerifierResult
  | err : VerifierResult
deriving DecidableEq, Repr

/-- `FTLock.authenticate_user` (ft_lock.py lines 204-211): returns the PAM
verdict, and catches any exception and returns `False`. -/
def authenticate_user : VerifierResult → Bool
  | .ok b => b
  | .err => false

/-- The user-visible result of one submission, abstracting the
`status_label` messages and the unlock call of ft_lock.py lines 213-278. -/
inductive AuthOutcome where
  | empty : AuthOutcome
  | blocked : Int → AuthOutcome
  | success : AuthOutcome
  | lockoutTriggered : AuthOutcome
  | invalidPassword : Int → AuthOutcome
deriving DecidableEq, Repr

/-- Result of running a submission: the new instance state, the reported
outcome, and whether `authenticate_user` (the PAM verifier) was invoked. -/
structure AuthResult where
  state : LockState
  outcome : AuthOutcome
  verifierCalled : Bool
deriving DecidableEq, Repr

/-- The lockout gate at the top of `FTLock._authenticate_threaded`
(ft_lock.py lines 232-249).  `Sum.inl remaining` is the early
`return` with the "System locked. Wait ..." message; `Sum.inr s` is
fall-through to the PAM call with the (possibly lazily cleared) state.
Python evaluates `if self.lockout_start_time:` by truthiness, so `None`
and `0.0` both fall through. -/
def lockout_check (s : LockState) (now : Int) : Sum Int LockState :=
  if s.lockoutActive then
    match s.lockoutStartTime with
    | some t =>
      if t = 0 then Sum.inr s
      else if 0 < lockout_duration - (now - t) then
        Sum.inl (lockout_duration - (now - t))
      else
        Sum.inr { s with lockoutActive := false, lockoutStartTime := none,
                         attempts := 0 }
    | none => Sum.inr s
  else Sum.inr s

/-- The PAM phase of `FTLock._authenticate_threaded` (ft_lock.py lines
251-278): on success reset `attempts` and `lockout_active` (note the code
does not touch `lockout_start_time` here); on failure increment `attempts`
and either trigger the 5-minute lockout (also scheduling `_clear_lockout`
300 s later, line 274) or report the remaining attempts. -/
def pam_phase (s : LockState) (vr : VerifierResult) (now : Int) : AuthResult :=
  if authenticate_user vr then
    { state := { s with attempts := 0, lockoutActive := false },
      outcome := .success, verifierCalled := true }
  else if max_attempts ≤ s.attempts + 1 then
    { state := { s with attempts := s.attempts + 1, lockoutActive := true,
                        lockoutStartTime := some now,
                        pendingClear := some (now + lockout_duration) },
      outcome := .lockoutTriggered, verifierCalled := true }
  else
    { state := { s with attempts := s.attempts + 1 },
      outcome := .invalidPassword ((max_attempts : Int) - ((s.attempts : Int) + 1)),
      verifierCalled := true }

/-- `FTLock._authenticate_threaded` (ft_lock.py lines 230-278): the lockout
gate followed (on fall-through) by the PAM phase. -/
def authenticate_threaded (s : LockState) (vr : VerifierResult) (now : Int) :
    AuthResult :=
  match lockout_check s now with
  | Sum.inl remaining =>
    { state := s, outcome := .blocked remaining, verifierCalled := false }
  | Sum.inr s2 => pam_phase s2 vr now

/-- `FTLock.on_unlock_attempt` (ft_lock.py lines 213-228): an empty entry
is reported locally (`if not password:`), and any other entry spawns a
thread running `_authenticate_threaded`.  `vr` is the verdict the PAM call
will produce for this password. -/
def on_unlock_attempt (s : LockState) (password : String)
    (vr : VerifierResult) (now : Int) : AuthResult :=
  if password = "" then
    { state := s, outcome := .empty, verifierCalled := false }
  else authenticate_threaded s vr now

/-- `FTLock._clear_lockout` (ft_lock.py lines 280-289): the body of the
callback scheduled at lockout time; clears the lockout and resets the
counter if a lockout is still active. -/
def clear_lockout (s : LockState) : LockState :=
  if s.lockoutActive then
    { s with lockoutActive := false, lockoutStartTime := none, attempts := 0 }
  else s

/-- The Tk event loop firing the `root.after(300000, self._clear_lockout)`
callback: runs `_clear_lockout` and removes the pending timer. -/
def timer_fired (s : LockState) : LockState :=
  { clear_lockout s with pendingClear := none }

/-- States of the `FTLock` instance reachable by the program: the state
after `__init__`, closed under submissions (wall-clock instants are
positive, as `time.time()` is) and under the scheduled `_clear_lockout`
callback firing. -/
inductive Reachable : LockState → Prop where
  | init : Reachable initState
  | submit (s : LockState) (password : String) (vr : VerifierResult)
      (now : Int) (h : Reachable s) (hnow : 0 < now) :
      Reachable (on_unlock_attempt s password vr now).state
  | timer (s : LockState) (t : Int) (h : Reachable s)
      (hp : s.pendingClear = some t) : Reachable (timer_fired s)

/-- The inductive invariant of the instance state: the counter never
exceeds `max_attempts`, the counter is strictly below the threshold
whenever no lockout is active, and an active lockout always has a truthy
(non-`None`, non-zero) start time. -/
def Inv (s : LockState) : Prop :=
  s.attempts ≤ max_attempts ∧
  (s.lockoutActive = false → s.attempts < max_attempts) ∧
  (s.lockoutActive = true → ∃ t, s.lockoutStartTime = some t ∧ t ≠ 0)

/-! ### Concrete runs used by witnesses and counterexamples -/

/-- First wrong-password submission from the fresh state, at time 100. -/
def exFail1 : AuthResult := on_unlock_attempt initState "a" (.ok false) 100

/-- Second consecutive wrong-password submission, at time 101. -/
def exFail2 : AuthResult := on_unlock_attempt exFail1.state "a" (.ok false) 101

/-- Third consecutive wrong-password submission, at time 102; this one
triggers the lockout. -/
def exFail3 : AuthResult := on_unlock_attempt exFail2.state "a" (.ok false) 102

/-- The locked-out state reached after three straight failures. -/
def exLocked : LockState := exFail3.state

/-- First of a back-to-back pair of wrong-password submissions. -/
def pair1 : AuthResult := on_unlock_attempt initState "hunter" (.ok false) 100

/-- Second of the back-to-back pair, fired at the same instant, before
the first verification has resolved. -/
def pair2 : AuthResult := on_unlock_attempt pair1.state "hunter" (.ok false) 100

/-! ## Helper lemmas -/

/-- The state after `__init__` satisfies the invariant. -/
theorem inv_init : Inv initState :=
  ⟨by decide, fun _ => by decide, fun h => Bool.noConfusion h⟩

/-- When no lockout is active the lockout gate falls through unchanged. -/
theorem lockout_check_inactive (s : LockState) (now : Int)
    (hA : s.lockoutActive = false) : lockout_check s now = Sum.inr s := by
  unfold lockout_check
  rw [if_neg (by simp [hA])]

/-- Whenever the lockout gate falls through on an invariant-satisfying
state, the state it passes to the PAM phase has no active lockout and a
counter strictly below the threshold. -/
theorem lockout_check_inr_inv (s s2 : LockState) (now : Int) (h : Inv s)
    (he : lockout_check s now = Sum.inr s2) :
    s2.lockoutActive = false ∧ s2.attempts < max_attempts := by
  unfold lockout_check at he
  cases hA : s.lockoutActive with
  | false =>
    simp only [hA, Bool.false_eq_true, if_false] at he
    cases he
    exact ⟨hA, h.2.1 hA⟩
  | true =>
    obtain ⟨t, ht, ht0⟩ := h.2.2 hA
    simp only [hA, if_true, ht, ht0, if_false] at he
    split at he
    · exact absurd he (by simp)
    · cases he
      exact ⟨rfl, by simp [max_attempts]⟩

/-- The PAM phase preserves the invariant, given that the incoming state
has no active lockout and its counter is below the threshold. -/
theorem pam_phase_inv (s : LockState) (vr : VerifierResult) (now : Int)
    (hA : s.lockoutActive = false) (ha : s.attempts < max_attempts)
    (hnow : 0 < now) : Inv (pam_phase s vr now).state := by
  unfold pam_phase
  by_cases hv : authenticate_user vr = true
  · rw [if_pos hv]
    exact ⟨show (0 : Nat) ≤ max_attempts by decide,
           fun _ => show (0 : Nat) < max_attempts by decide,
           fun h => Bool.noConfusion h⟩
  · rw [if_neg hv]
    by_cases h3 : max_attempts ≤ s.attempts + 1
    · rw [if_pos h3]
      refine ⟨?_, fun h => Bool.noConfusion h, fun _ => ⟨now, rfl, ne_of_gt hnow⟩⟩
      show s.attempts + 1 ≤ max_attempts
      omega
    · rw [if_neg h3]
      refine ⟨?_, fun _ => ?_, fun h => ?_⟩
      · show s.attempts + 1 ≤ max_attempts
        omega
      · show s.attempts + 1 < max_attempts
        omega
      · exact absurd (show s.lockoutActive = true from h) (by simp [hA])

/-- Reduction of a submission thread when the gate blocks. -/
theorem authenticate_threaded_inl (s : LockState) (now r : Int)
    (vr : VerifierResult) (hlc : lockout_check s now = Sum.inl r) :
    authenticate_threaded s vr now =
      { state := s, outcome := .blocked r, verifierCalled := false } := by
  unfold authenticate_threaded
  rw [hlc]

/-- Reduction of a submission thread when the gate falls through. -/
theorem authenticate_threaded_inr (s s2 : LockState) (now : Int)
    (vr : VerifierResult) (hlc : lockout_check s now = Sum.inr s2) :
    authenticate_threaded s vr now = pam_phase s2 vr now := by
  unfold authenticate_threaded
  rw [hlc]

/-- When no lockout is active a submission thread goes straight to the
PAM phase. -/
theorem authenticate_threaded_inactive (s : LockState) (vr : VerifierResult)
    (now : Int) (hA : s.lockoutActive = false) :
    authenticate_threaded s vr now = pam_phase s vr now := by
  unfold authenticate_threaded
  rw [lockout_check_inactive s now hA]

/-- One full submission thread preserves the invariant. -/
theorem authenticate_threaded_inv (s : LockState) (vr : VerifierResult)
    (now : Int) (h : Inv s) (hnow : 0 < now) :
    Inv (authenticate_threaded s vr now).state := by
  unfold authenticate_threaded
  cases he : lockout_check s now with
  | inl r => exact h
  | inr s2 =>
    obtain ⟨h1, h2⟩ := lockout_check_inr_inv s s2 now h he
    exact pam_phase_inv s2 vr now h1 h2 hnow

/-- The `_clear_lockout` body preserves the invariant. -/
theorem clear_lockout_inv (s : LockState) (h : Inv s) :
    Inv (clear_lockout s) := by
  unfold clear_lockout
  by_cases hA : s.lockoutActive = true
  · rw [if_pos hA]
    exact ⟨show (0 : Nat) ≤ max_attempts by decide,
           fun _ => show (0 : Nat) < max_attempts by decide,
           fun hh => Bool.noConfusion hh⟩
  · rw [if_neg hA]
    exact h

/-- Firing the scheduled `_clear_lockout` callback preserves the
invariant. -/
theorem timer_fired_inv (s : LockState) (h : Inv s) : Inv (timer_fired s) :=
  ⟨(clear_lockout_inv s h).1, (clear_lockout_inv s h).2.1,
   (clear_lockout_inv s h).2.2⟩

/-- Every reachable state satisfies the invariant. -/
theorem reachable_inv (s : LockState) (h : Reachable s) : Inv s := by
  induction h with
  | init => exact inv_init
  | submit s p vr now h hnow ih =>
    unfold on_unlock_attempt
    split
    · exact ih
    · exact authenticate_threaded_inv s vr now ih hnow
  | timer s t h hp ih => exact timer_fired_inv s ih

/-- The three-failure state is reachable from the fresh state. -/
theorem reachable_exLocked : Reachable exLocked :=
  Reachable.submit exFail2.state "a" (.ok false) 102
    (Reachable.submit exFail1.state "a" (.ok false) 101
      (Reachable.submit initState "a" (.ok false) 100 Reachable.init
        (by decide))
      (by decide))
    (by decide)

/-- A non-empty wrong-password submission below the threshold: the
verifier runs, the counter is incremented, the outcome is the
remaining-attempts message. -/
theorem fail_step (s : LockState) (p : String) (vr : VerifierResult)
    (now : Int) (hp : p ≠ "") (hA : s.lockoutActive = false)
    (hv : authenticate_user vr = false)
    (hlt : s.attempts + 1 < max_attempts) :
    on_unlock_attempt s p vr now =
      { state := { s with attempts := s.attempts + 1 },
        outcome := .invalidPassword
          ((max_attempts : Int) - ((s.attempts : Int) + 1)),
        verifierCalled := true } := by
  unfold on_unlock_attempt
  rw [if_neg hp, authenticate_threaded_inactive s vr now hA]
  unfold pam_phase
  rw [if_neg (by simp [hv]), if_neg (not_le.mpr hlt)]

/-! ## Claim theorems -/

/-- Claim C1, counterexample: the event with the control modifier
(bit 0x4) and base key `b` is a control combination, yet
`block_all_keys` allows it, because the control branch only blocks the
base keys c, v, x, z, a, t.  This refutes the claim that every event
carrying a control, alt, or super modifier returns Block. -/
theorem ctrl_combo_allowed_cx :
    ({ state := 4, keysym := "b" } : KeyEvent).state &&& 0x4 ≠ 0 ∧
    block_all_keys { state := 4, keysym := "b" } = .allow ∧
    block_all_keys { state := 4, keysym := "b" } ≠ .block := by decide

/-- Claim C1, amended: events carrying an alt (0x8) or super (0x40)
modifier are unconditionally blocked, and these checks are decided before
the allow-list (the conclusion holds whatever the base key, including
otherwise-allowed single characters); a control (0x4) combination is
blocked only when the base key is one of c, v, x, z, a, t. -/
theorem modifier_block_amended (e : KeyEvent) :
    (e.state &&& 0x8 ≠ 0 → block_all_keys e = .block) ∧
    (e.state &&& 0x40 ≠ 0 → block_all_keys e = .block) ∧
    (e.state &&& 0x4 ≠ 0 → e.keysym ∈ ctrl_blocked_keys →
      block_all_keys e = .block) := by
  unfold block_all_keys
  refine ⟨fun h8 => ?_, fun h64 => ?_, fun h4 hk => ?_⟩
  · by_cases hc : e.state &&& 0x4 ≠ 0 ∧ e.keysym ∈ ctrl_blocked_keys
    · rw [if_pos hc]
    · rw [if_neg hc, if_pos h8]
  · by_cases hc : e.state &&& 0x4 ≠ 0 ∧ e.keysym ∈ ctrl_blocked_keys
    · rw [if_pos hc]
    · rw [if_neg hc]
      by_cases h8 : e.state &&& 0x8 ≠ 0
      · rw [if_pos h8]
      · rw [if_neg h8, if_pos h64]
  · rw [if_pos ⟨h4, hk⟩]

/-- Claim C1, witness: the amended theorem applied to an alt event with
an otherwise-allowed single-character key, a super event, and a blocked
control combination. -/
theorem modifier_block_amended_witness :
    block_all_keys { state := 8, keysym := "a" } = .block ∧
    block_all_keys { state := 64, keysym := "a" } = .block ∧
    block_all_keys { state := 4, keysym := "c" } = .block :=
  ⟨(modifier_block_amended { state := 8, keysym := "a" }).1 (by decide),
   (modifier_block_amended { state := 64, keysym := "a" }).2.1 (by decide),
   (modifier_block_amended { state := 4, keysym := "c" }).2.2 (by decide)
     (by decide)⟩

/-- Claim C2, counterexample: two back-to-back wrong-password submissions
fired at the same instant.  The code has no in-flight flag, so the second
submission is also evaluated: the verifier is invoked for both, and the
attempt counter is mutated twice for the pair (0 to 1 to 2), refuting
the claim that the second is rejected, that no second verifier call is
made, and that exactly one lockout-policy mutation occurs. -/
theorem double_submission_cx :
    pair1.verifierCalled = true ∧ pair2.verifierCalled = true ∧
    pair1.state.attempts = 1 ∧ pair2.state.attempts = 2 := by decide

/-- Claim C2, amended: there is no single-flight gate.  Every non-empty
submission spawns its own verification thread and is evaluated; for a
back-to-back pair of wrong-password submissions from a fresh non-locked
state, the verifier is invoked for each of the pair and two lockout-policy
mutations occur (the counter is incremented twice). -/
theorem no_single_flight (s : LockState) (p1 p2 : String)
    (vr1 vr2 : VerifierResult) (now : Int)
    (h1 : p1 ≠ "") (h2 : p2 ≠ "") (hA : s.lockoutActive = false)
    (h0 : s.attempts = 0)
    (hv1 : authenticate_user vr1 = false)
    (hv2 : authenticate_user vr2 = false) :
    (on_unlock_attempt s p1 vr1 now).verifierCalled = true ∧
    (on_unlock_attempt (on_unlock_attempt s p1 vr1 now).state
        p2 vr2 now).verifierCalled = true ∧
    (on_unlock_attempt (on_unlock_attempt s p1 vr1 now).state
        p2 vr2 now).state.attempts = 2 := by
  have e1 := fail_step s p1 vr1 now h1 hA hv1 (by rw [h0]; decide)
  have hA1 : (on_unlock_attempt s p1 vr1 now).state.lockoutActive = false := by
    rw [e1]; exact hA
  have ha1 : (on_unlock_attempt s p1 vr1 now).state.attempts = 1 := by
    rw [e1]; simp [h0]
  have e2 := fail_step (on_unlock_attempt s p1 vr1 now).state p2 vr2 now
    h2 hA1 hv2 (by rw [ha1]; decide)
  refine ⟨by rw [e1], by rw [e2], ?_⟩
  rw [e2]
  simp [ha1]

/-- Claim C2, witness: the amended theorem applied to a concrete
back-to-back pair from the fresh state. -/
theorem no_single_flight_witness :
    (on_unlock_attempt initState "x" (.ok false) 100).verifierCalled = true ∧
    (on_unlock_attempt (on_unlock_attempt initState "x" (.ok false) 100).state
        "y" (.ok false) 100).verifierCalled = true ∧
    (on_unlock_attempt (on_unlock_attempt initState "x" (.ok false) 100).state
        "y" (.ok false) 100).state.attempts = 2 :=
  no_single_flight initState "x" "y" (.ok false) (.ok false) 100
    (by decide) (by decide) rfl rfl rfl rfl

/-- Claim C3: for every reachable state with an active lockout whose
cooldown has not elapsed, a submission reports Blocked with the remaining
time, the verifier is not invoked, and the whole state (counter, lockout
flag, window) is left unchanged. -/
theorem blocked_window_pure (s : LockState) (t now : Int)
    (vr : VerifierResult) (hr : Reachable s) (hA : s.lockoutActive = true)
    (hs : s.lockoutStartTime = some t) (hw : now - t < lockout_duration) :
    authenticate_threaded s vr now =
      { state := s, outcome := .blocked (lockout_duration - (now - t)),
        verifierCalled := false } := by
  obtain ⟨t2, ht2, ht0⟩ := (reachable_inv s hr).2.2 hA
  rw [hs] at ht2
  injection ht2 with ht2
  subst ht2
  have hlc : lockout_check s now
      = Sum.inl (lockout_duration - (now - t)) := by
    simp [lockout_check, hA, hs, ht0, sub_pos.mpr hw]
  unfold authenticate_threaded
  rw [hlc]

/-- Claim C3, witness: the theorem applied to the reachable locked-out
state, ten seconds into the cooldown. -/
theorem blocked_window_pure_witness :
    authenticate_threaded exLocked (.ok false) 112 =
      { state := exLocked,
        outcome := .blocked (lockout_duration - (112 - 102)),
        verifierCalled := false } :=
  blocked_window_pure exLocked 102 112 (.ok false) reachable_exLocked
    (by decide) (by decide) (by decide)

/-- Claim C4: with no lockout active, a recorded failure increments the
counter and invokes the verifier; when the incremented counter reaches
`max_attempts` (which is 3) the state transitions to a lockout whose
window lasts `lockout_duration` (which is 300 seconds), the start time is
the current instant, the clear callback is scheduled 300 seconds later,
and the counter is left non-reset; below the threshold the outcome
reports the remaining attempts, `max_attempts` minus the counter. -/
theorem record_failure_spec (s : LockState) (vr : VerifierResult)
    (now : Int) (hA : s.lockoutActive = false)
    (hv : authenticate_user vr = false) :
    max_attempts = 3 ∧ lockout_duration = 300 ∧
    (authenticate_threaded s vr now).state.attempts = s.attempts + 1 ∧
    (authenticate_threaded s vr now).verifierCalled = true ∧
    (max_attempts ≤ s.attempts + 1 →
      (authenticate_threaded s vr now).state.lockoutActive = true ∧
      (authenticate_threaded s vr now).state.lockoutStartTime = some now ∧
      (authenticate_threaded s vr now).state.pendingClear
        = some (now + lockout_duration) ∧
      (authenticate_threaded s vr now).outcome = .lockoutTriggered) ∧
    (s.attempts + 1 < max_attempts →
      (authenticate_threaded s vr now).outcome
        = .invalidPassword ((max_attempts : Int) - ((s.attempts : Int) + 1)) ∧
      (authenticate_threaded s vr now).state.lockoutActive = false) := by
  rw [authenticate_threaded_inactive s vr now hA]
  unfold pam_phase
  rw [if_neg (by simp [hv])]
  by_cases h3 : max_attempts ≤ s.attempts + 1
  · rw [if_pos h3]
    exact ⟨rfl, rfl, rfl, rfl, fun _ => ⟨rfl, rfl, rfl, rfl⟩,
           fun hlt => absurd hlt (not_lt.mpr h3)⟩
  · rw [if_neg h3]
    exact ⟨rfl, rfl, rfl, rfl, fun hle => absurd hle h3,
           fun _ => ⟨rfl, hA⟩⟩

/-- Claim C4, witness: the theorem applied to the state holding two
failures; the third failure triggers the lockout. -/
theorem record_failure_spec_witness :
    (authenticate_threaded exFail2.state (.ok false) 102).outcome
      = .lockoutTriggered :=
  ((record_failure_spec exFail2.state (.ok false) 102 (by decide)
      rfl).2.2.2.2.1 (by decide)).2.2.2

/-- Claim C5, counterexample: a whitespace-only secret (a single space)
is truthy in Python, so `on_unlock_attempt` does not reject it locally:
the verifier is invoked and a failed attempt is counted, refuting the
claim for whitespace-only secrets. -/
theorem whitespace_secret_cx :
    (on_unlock_attempt initState " " (.ok false) 100).verifierCalled
      = true ∧
    (on_unlock_attempt initState " " (.ok false) 100).state.attempts
      = 1 := by decide

/-- Claim C5, amended: only the empty secret is rejected locally (the
code tests `if not password:`): for the empty string the verifier is
never invoked, the lockout policy is never consulted, and the state is
unchanged; a whitespace-only secret is processed as a normal submission. -/
theorem empty_secret_local (s : LockState) (vr : VerifierResult)
    (now : Int) :
    on_unlock_attempt s "" vr now =
      { state := s, outcome := .empty, verifierCalled := false } := by
  unfold on_unlock_attempt
  rw [if_pos rfl]

/-- Claim C6: whenever a submission resolves to Success, the resulting
state has the attempt counter reset to 0 and no active lockout,
whatever the prior counter value or lockout status. -/
theorem success_resets_state (s : LockState) (vr : VerifierResult)
    (now : Int)
    (h : (authenticate_threaded s vr now).outcome = .success) :
    (authenticate_threaded s vr now).state.attempts = 0 ∧
    (authenticate_threaded s vr now).state.lockoutActive = false := by
  cases hlc : lockout_check s now with
  | inl r =>
    rw [authenticate_threaded_inl s now r vr hlc] at h
    simp at h
  | inr s2 =>
    rw [authenticate_threaded_inr s s2 now vr hlc] at h ⊢
    unfold pam_phase at h ⊢
    by_cases hv : authenticate_user vr = true
    · rw [if_pos hv]
      exact ⟨rfl, rfl⟩
    · rw [if_neg hv] at h
      by_cases h3 : max_attempts ≤ s2.attempts + 1
      · rw [if_pos h3] at h; simp at h
      · rw [if_neg h3] at h; simp at h

/-- Claim C6, witness: a successful verification from the locked-out
state after the window elapsed resets the counter and clears the
lockout. -/
theorem success_resets_state_witness :
    (authenticate_threaded exLocked (.ok true) 403).state.attempts = 0 ∧
    (authenticate_threaded exLocked (.ok true) 403).state.lockoutActive
      = false :=
  success_resets_state exLocked (.ok true) 403 (by decide)

/-- Claim C7, counterexample: the reachable locked-out state has a
`_clear_lockout` callback pending (scheduled by the code at lockout
time), and that callback firing clears the lockout and resets the
counter with no attempt being evaluated — refuting the claim that the
LockedOut state is left only lazily at the next attempt evaluation. -/
theorem timer_clear_cx :
    exLocked.lockoutActive = true ∧
    exLocked.pendingClear = some 402 ∧
    (timer_fired exLocked).lockoutActive = false ∧
    (timer_fired exLocked).attempts = 0 := by decide

/-- Claim C7, amended: the LockedOut state is left on two paths, neither
of which sleeps for the cooldown: lazily, when an attempt is evaluated
after the cooldown elapsed, the window is cleared and the counter reset
to 0 before the new attempt is evaluated; and eagerly, when the
`_clear_lockout` callback scheduled 300 seconds after the trigger fires,
which also clears the window and resets the counter. -/
theorem lockout_exit_paths :
    (∀ (s : LockState) (t now : Int) (vr : VerifierResult),
      s.lockoutActive = true → s.lockoutStartTime = some t → t ≠ 0 →
      lockout_duration ≤ now - t →
      authenticate_threaded s vr now =
        pam_phase { s with lockoutActive := false,
                           lockoutStartTime := none, attempts := 0 }
          vr now) ∧
    (∀ s : LockState, s.lockoutActive = true →
      timer_fired s =
        { s with lockoutActive := false, lockoutStartTime := none,
                 attempts := 0, pendingClear := none }) := by
  constructor
  · intro s t now vr hA hs ht0 hel
    have hlc : lockout_check s now =
        Sum.inr { s with lockoutActive := false, lockoutStartTime := none,
                         attempts := 0 } := by
      simp [lockout_check, hA, hs, ht0, not_lt.mpr (sub_nonpos.mpr hel)]
    unfold authenticate_threaded
    rw [hlc]
  · intro s hA
    unfold timer_fired clear_lockout
    rw [if_pos hA]

/-- Claim C7, witness: both exit paths taken from the reachable
locked-out state. -/
theorem lockout_exit_paths_witness :
    authenticate_threaded exLocked (.ok true) 403 =
      pam_phase { exLocked with lockoutActive := false,
                                lockoutStartTime := none,
                                attempts := 0 }
        (.ok true) 403 ∧
    timer_fired exLocked =
      { exLocked with lockoutActive := false,
                      lockoutStartTime := none,
                      attempts := 0, pendingClear := none } :=
  ⟨lockout_exit_paths.1 exLocked 102 403 (.ok true) (by decide) (by decide)
      (by decide) (by decide),
   lockout_exit_paths.2 exLocked (by decide)⟩

/-- Claim C8: a submission on which the verifier raises an error produces
exactly the same result (state, outcome, verifier invocation) as a
wrong-secret submission, and is never a success — so it is counted
against the attempt budget exactly as a failure is. -/
theorem verifier_error_as_failure (s : LockState) (now : Int) :
    authenticate_threaded s .err now
      = authenticate_threaded s (.ok false) now ∧
    (authenticate_threaded s .err now).outcome ≠ .success := by
  constructor
  · unfold authenticate_threaded
    cases hlc : lockout_check s now with
    | inl r => rfl
    | inr s2 => rfl
  · cases hlc : lockout_check s now with
    | inl r =>
      rw [authenticate_threaded_inl s now r .err hlc]
      simp
    | inr s2 =>
      rw [authenticate_threaded_inr s s2 now .err hlc]
      unfold pam_phase
      rw [if_neg (show ¬authenticate_user .err = true by decide)]
      by_cases h3 : max_attempts ≤ s2.attempts + 1
      · rw [if_pos h3]; simp
      · rw [if_neg h3]; simp

/-- Claim C9: the invariant that the attempt counter lies between 0 and
`max_attempts` (which is 3) holds in every reachable state of the state
machine — it holds after `__init__` and is preserved by every submission
and by the clear-lockout callback. -/
theorem attempts_counter_bounded (s : LockState) (h : Reachable s) :
    0 ≤ s.attempts ∧ s.attempts ≤ max_attempts :=
  ⟨Nat.zero_le _, (reachable_inv s h).1⟩

/-- Claim C9, witness: the bound evaluated at the reachable locked-out
state, where the counter sits at the maximum. -/
theorem attempts_counter_bounded_witness :
    0 ≤ exLocked.attempts ∧ exLocked.attempts ≤ max_attempts :=
  attempts_counter_bounded exLocked reachable_exLocked

/-- Claim C10: a key event with no control, alt, or super modifier whose
keysym starts with KP underscore (a keypad key) is allowed by the filter,
via the explicit keypad branch of the allow-list. -/
theorem keypad_keys_allowed (e : KeyEvent)
    (h4 : e.state &&& 0x4 = 0) (h8 : e.state &&& 0x8 = 0)
    (h64 : e.state &&& 0x40 = 0)
    (hkp : startswith "KP_" e.keysym = true) :
    block_all_keys e = .allow := by
  unfold block_all_keys
  rw [if_neg (by simp [h4]), if_neg (by simp [h8]), if_neg (by simp [h64])]
  by_cases hl : e.keysym.length = 1
  · rw [if_pos hl]
  · rw [if_neg hl, if_pos (Or.inr (Or.inr hkp))]

/-- Claim C10, witness: the keypad key KP 1 with no modifiers is
allowed. -/
theorem keypad_keys_allowed_witness :
    block_all_keys { state := 0, keysym := "KP_1" } = .allow :=
  keypad_keys_allowed { state := 0, keysym := "KP_1" }
    (by decide) (by decide) (by decide) (by decide)

end FTLock
